import Mathlib

/-!
Shallow embedding of the TR-55 hydrology model (`tr55/model.py` and
`tr55/tablelookup.py`).  Python floats are modelled by `ℚ` (every numeric
literal in the source is an exact decimal), raised exceptions by
`Except String`, and Python dictionaries by association lists.  The static
reference tables of `tr55/tables.py` are not part of the sources, so they
are modelled from the specification where indicated.
-/

/-- Value attached to a land use in the `LAND_USE_VALUES` table: an optional
curve-number sub-table (soil type to curve number), an optional `ki`
coefficient, an optional infiltration factor and an optional NLCD class.
Optional fields model the optional dictionary keys of the Python table. -/
structure LandUseValue where
  cn : Option (List (String × ℚ))
  ki : Option ℚ
  infiltration_factor : Option ℚ
  nlcd : Option ℕ
deriving DecidableEq

/-- Modelled from the spec: the `LAND_USE_VALUES` reference table of the
missing `tr55/tables.py` (soil/land-use curve-number matrix, land-use `ki`
coefficients, NLCD classes).  Land-use names follow `tr55/model.py`; curve
numbers are between 30 and 100 as in the TR-55 tables; BMP land uses carry
no curve numbers (the spec routes BMP tiles around the curve-number
method). -/
def LAND_USE_VALUES : List (String × LandUseValue) :=
  [ ("Water", ⟨some [("a", 100), ("b", 100), ("c", 100), ("d", 100)], some 1, none, some 11⟩)
  , ("LI_Residential", ⟨some [("a", 51), ("b", 68), ("c", 79), ("d", 84)], some (42/100), none, some 22⟩)
  , ("HI_Residential", ⟨some [("a", 77), ("b", 85), ("c", 90), ("d", 92)], some (18/100), none, some 23⟩)
  , ("Commercial", ⟨some [("a", 89), ("b", 92), ("c", 94), ("d", 95)], some (6/100), none, some 24⟩)
  , ("Industrial", ⟨some [("a", 81), ("b", 88), ("c", 91), ("d", 93)], some (6/100), none, some 24⟩)
  , ("Transportation", ⟨some [("a", 98), ("b", 98), ("c", 98), ("d", 98)], some 0, none, some 21⟩)
  , ("UrbanGrass", ⟨some [("a", 39), ("b", 61), ("c", 74), ("d", 80)], some 1, none, some 71⟩)
  , ("MixedForest", ⟨some [("a", 30), ("b", 55), ("c", 70), ("d", 77)], some 1, none, some 43⟩)
  , ("WoodyWetland", ⟨some [("a", 86), ("b", 86), ("c", 86), ("d", 86)], some 1, none, some 90⟩)
  , ("HerbaceousWetland", ⟨some [("a", 80), ("b", 80), ("c", 80), ("d", 80)], some 1, none, some 95⟩)
  , ("Rain_Garden", ⟨none, some (8/100), some (6/10), none⟩)
  , ("Infiltration_Trench", ⟨none, some (8/100), some (6/10), none⟩)
  ]

/-- Modelled from the spec: the `BMPS` classification set of the missing
`tr55/tables.py` (which land uses are best-management practices).  BMP
identifiers are plain land-use names, never colon-delimited tile strings. -/
def BMPS : List String :=
  ["Rain_Garden", "Infiltration_Trench", "Porous_Paving", "Green_Roof"]

/-- Modelled from the spec: the `BUILT_TYPES` classification set of the
missing `tr55/tables.py` (which land uses are built covers); these are
exactly the land uses given Pitt blending weights in `tr55/model.py`. -/
def BUILT_TYPES : List String :=
  [ "Water", "LI_Residential", "HI_Residential", "Commercial"
  , "Industrial", "Transportation", "UrbanGrass" ]

/-- Modelled from the spec: the `NON_NATURAL` classification set of the
missing `tr55/tables.py`; per the spec the non-natural land uses are the
built covers and the BMP identifiers. -/
def NON_NATURAL : List String := BUILT_TYPES ++ BMPS

/-- Event mean concentrations of the four pollutants for one NLCD class. -/
structure PollutantLoads where
  tn : ℚ
  tp : ℚ
  bod : ℚ
  tss : ℚ
deriving DecidableEq

/-- Modelled from the spec: the `POLLUTION_LOADS` reference table of the
missing `tr55/tables.py`, keyed by NLCD class number. -/
def POLLUTION_LOADS : List (ℕ × PollutantLoads) :=
  [ (11, ⟨0, 0, 0, 0⟩)
  , (21, ⟨259/100, 41/100, 26/10, 122⟩)
  , (22, ⟨258/100, 38/100, 55/10, 70⟩)
  , (23, ⟨232/100, 35/100, 9, 114⟩)
  , (24, ⟨243/100, 39/100, 95/10, 110⟩)
  , (43, ⟨246/100, 31/100, 53/10, 39⟩)
  ]

/-- Embedding of `tablelookup.lookup_infiltration_factor`.  The source checks
for the key `ki` but then reads the key `infiltration_factor`; a present `ki`
with an absent `infiltration_factor` therefore raises a bare `KeyError`. -/
def lookup_infiltration_factor (land_use : String) : Except String ℚ :=
  match LAND_USE_VALUES.lookup land_use with
  | none => .error ("Unknown land use: " ++ land_use)
  | some v =>
    match v.ki with
    | none => .error ("No infiltration factor for land use " ++ land_use)
    | some _ =>
      match v.infiltration_factor with
      | none => .error "KeyError: infiltration_factor"
      | some f => .ok f

/-- Embedding of `tablelookup.lookup_ki`. -/
def lookup_ki (land_use : String) : Except String ℚ :=
  match LAND_USE_VALUES.lookup land_use with
  | none => .error ("Unknown land use: " ++ land_use)
  | some v =>
    match v.ki with
    | none => .error ("No ki for land use " ++ land_use)
    | some k => .ok k

/-- Embedding of `tablelookup.lookup_cn`. -/
def lookup_cn (soil_type land_use : String) : Except String ℚ :=
  match LAND_USE_VALUES.lookup land_use with
  | none => .error ("Unknown land use: " ++ land_use)
  | some v =>
    match v.cn with
    | none => .error ("No curve numbers for land use " ++ land_use)
    | some cns =>
      match cns.lookup soil_type with
      | none => .error ("Unknown soil type: " ++ soil_type)
      | some cn => .ok cn

/-- Embedding of `tablelookup.is_bmp`: membership of the argument in the
`BMPS` set. -/
def is_bmp (land_use : String) : Bool := BMPS.contains land_use

/-- Embedding of `tablelookup.is_built_type`: membership of the argument in
the `BUILT_TYPES` set. -/
def is_built_type (land_use : String) : Bool := BUILT_TYPES.contains land_use

/-- Embedding of `tablelookup.make_precolumbian`. -/
def make_precolumbian (land_use : String) : String :=
  if land_use ∈ NON_NATURAL then "mixed_forest" else land_use

/-- Embedding of `tablelookup.lookup_load`.  The final table access of the
source is a plain dictionary access; the guard has already ensured the
pollutant is one of the four known ones, so the catch-all branch is
unreachable. -/
def lookup_load (nlcd_class : ℕ) (pollutant : String) : Except String ℚ :=
  if pollutant ∉ ["tn", "tp", "bod", "tss"] then
    .error ("Unknown pollutant type: " ++ pollutant)
  else
    match POLLUTION_LOADS.lookup nlcd_class with
    | none => .error ("Unknown NLCD class: " ++ Nat.repr nlcd_class)
    | some loads =>
      match pollutant with
      | "tn" => .ok loads.tn
      | "tp" => .ok loads.tp
      | "bod" => .ok loads.bod
      | "tss" => .ok loads.tss
      | _ => .error "KeyError"

/-- Embedding of `tablelookup.lookup_nlcd`.  In the second error branch the
source passes the land use as a second argument to `KeyError` instead of
interpolating it, so the `%s` placeholder survives in the message. -/
def lookup_nlcd (land_use : String) : Except String ℚ :=
  match LAND_USE_VALUES.lookup land_use with
  | none => .error ("Unknown land use type: " ++ land_use)
  | some v =>
    match v.nlcd with
    | none => .error ("Land use type %s does not have an NLCD class defined, " ++ land_use)
    | some n => .ok (n : ℚ)

/-- Modelled from the spec: the `BMP_INFILTRATION` table of the missing
`tr55/tables.py`, giving the fixed infiltration rate of each BMP on each
hydrologic soil group. -/
def BMP_INFILTRATION : List (String × List (String × ℚ)) :=
  [ ("Rain_Garden", [("a", 8/5), ("b", 6/5), ("c", 1/2), ("d", 1/5)])
  , ("Infiltration_Trench", [("a", 12/5), ("b", 9/5), ("c", 3/5), ("d", 1/5)])
  , ("Porous_Paving", [("a", 2), ("b", 3/2), ("c", 1/2), ("d", 1/10)])
  , ("Green_Roof", [("a", 8/5), ("b", 8/5), ("c", 8/5), ("d", 8/5)])
  ]

/-- Modelled from the spec: `lookup_bmp_infiltration(soil_type, bmp)`, a
table lookup that fails if the soil type or BMP combination is absent; the
function is imported by `tr55/model.py` but its definition is not among the
sources. -/
def lookup_bmp_infiltration (soil_type bmp : String) : Except String ℚ :=
  match BMP_INFILTRATION.lookup bmp with
  | none => .error ("Unknown BMP: " ++ bmp)
  | some row =>
    match row.lookup soil_type with
    | none => .error ("Unknown soil type: " ++ soil_type)
    | some inf => .ok inf

/-- Modelled from the spec: the run-length-encoded sample-year precipitation
series of the missing `tr55/tables.py`, a list of
(consecutive days, precipitation) pairs covering a 365-day reference year.
The year opens with a dry spell, so day 0 has zero precipitation. -/
def SAMPLE_YEAR : List (ℕ × ℚ) := [(10, 0), (5, 1/2), (170, 1/10), (180, 0)]

/-- Helper for `lookup_p`: walk the run-length-encoded series looking for
the run containing the given day offset. -/
def precip_from_runs (day : ℕ) : List (ℕ × ℚ) → Except String ℚ
  | [] => .error ("No precipitation data for day " ++ Nat.repr day)
  | (len, val) :: rest =>
    if day < len then .ok val else precip_from_runs (day - len) rest

/-- Modelled from the spec: `lookup_p(date)`, imported by `tr55/model.py`
but missing from the sources.  A date is reduced to a day offset into the
fixed reference year (cycling modulo the day count of the year) and looked
up in the run-length-encoded series. -/
def lookup_p (day : ℕ) : Except String ℚ :=
  precip_from_runs (day % 365) SAMPLE_YEAR

/-- Modelled from the spec: `lookup_et(date, land_use)`, imported by
`tr55/model.py` but missing from the sources.  A maximum-ET constant chosen
by whether the day falls inside the growing-season window (inclusive
bounds) is multiplied by the land-use `ki` coefficient. -/
def lookup_et (day : ℕ) (land_use : String) : Except String ℚ :=
  match lookup_ki land_use with
  | .error e => .error e
  | .ok ki =>
    let et_max : ℚ := if 121 ≤ day % 365 ∧ day % 365 ≤ 273 then 207/1000 else 0
    .ok (et_max * ki)

/-- Embedding of lines 22 to 41 of `tr55/model.py`: the `runoff_vals`
dictionary of `runoff_pitt`, mapping each built land use to the blend of
the impervious cubic and the urban-grass quartic at the given
precipitation.  The decimal constants of the source are written as exact
fractions, for example `3.638858398e-2` as `3638858398 / 10 ^ 11`. -/
def pitt_runoff_vals (precip : ℚ) : List (String × ℚ) :=
  let const1 : ℚ := 3638858398 / 10 ^ 11
  let const2 : ℚ := -(1243464039 / 10 ^ 10)
  let const3 : ℚ := 1295682223 / 10 ^ 10
  let const4 : ℚ := 9375868043 / 10 ^ 10
  let const5 : ℚ := -(2235170859 / 10 ^ 11)
  let const6 : ℚ := 170228067 / 10 ^ 9
  let const7 : ℚ := -(3971810782 / 10 ^ 10)
  let const8 : ℚ := 3887275538 / 10 ^ 10
  let const9 : ℚ := -(2289321859 / 10 ^ 11)
  let impervious := (const1 * precip ^ 3) + (const2 * precip ^ 2) + (const3 * precip) + const4
  let urban_grass := (const5 * precip ^ 4) + (const6 * precip ^ 3) + (const7 * precip ^ 2) + (const8 * precip) + const9
  [ ("Water", impervious)
  , ("LI_Residential", 20 / 100 * impervious + 80 / 100 * urban_grass)
  , ("HI_Residential", 65 / 100 * impervious + 35 / 100 * urban_grass)
  , ("Commercial", impervious)
  , ("Industrial", impervious)
  , ("Transportation", impervious)
  , ("UrbanGrass", urban_grass)
  ]

/-- Embedding of `model.runoff_pitt`.  The source computes `runoff_vals`
but never reads it: its `return min(runoff, precip)` refers to a name
`runoff` that is bound nowhere in the function, so every call that passes
the built-type membership test raises `NameError` instead of returning the
blended value. -/
def runoff_pitt (precip : ℚ) (land_use : String) : Except String ℚ :=
  if ((pitt_runoff_vals precip).lookup land_use).isNone then
    .error ("Land use " ++ land_use ++ " not a built-type")
  else
    .error "NameError: name runoff is not defined"

/-- Embedding of lines 54 to 58 of `model.runoff_nrcs`, the computation on
a given curve number; the decimal constant `0.2` of the source is written
as the exact fraction `2 / 10`.  Python float division raises
`ZeroDivisionError` on a zero divisor, so the two divisions are guarded
accordingly. -/
def runoff_nrcs_cn (precip curve_number : ℚ) : Except String ℚ :=
  if curve_number = 0 then .error "ZeroDivisionError: float division by zero"
  else
    let potential_retention := (1000 / curve_number) - 10
    let initial_abs := 2 / 10 * potential_retention
    let precip_minus_initial_abs := precip - initial_abs
    if precip_minus_initial_abs + potential_retention = 0 then
      .error "ZeroDivisionError: float division by zero"
    else
      let runoff := precip_minus_initial_abs ^ 2 / (precip_minus_initial_abs + potential_retention)
      .ok (min runoff precip)

/-- Embedding of `model.runoff_nrcs`: look up the curve number, then apply
the TR-55 runoff equation. -/
def runoff_nrcs (precip : ℚ) (soil_type land_use : String) : Except String ℚ :=
  match lookup_cn soil_type land_use with
  | .error e => .error e
  | .ok curve_number => runoff_nrcs_cn precip curve_number

/-- First argument of `simulate_tile`: either a date (modelled as a day
number) or an explicit (precipitation, evapotranspiration) pair. -/
inductive DayParams where
  | date (day : ℕ)
  | pair (precip evaptrans : ℚ)
deriving DecidableEq

/-- Model of Python `str.split` on the colon character, on character
lists: `"a:b"` gives `["a", "b"]`, `"ab"` gives `["ab"]`, `""` gives
`[""]`. -/
def splitOnColon : List Char → List (List Char)
  | [] => [[]]
  | c :: rest =>
    let r := splitOnColon rest
    if c = ':' then [] :: r
    else
      match r with
      | [] => [[c]]
      | g :: gs => (c :: g) :: gs

/-- Embedding of line 81 of `tr55/model.py`:
`soil_type, land_use = tile_string.split(":")`.  Unpacking to exactly two
names raises `ValueError` unless the split produced exactly two pieces. -/
def splitTile (tile_string : String) : Option (String × String) :=
  match (splitOnColon tile_string.toList).map List.asString with
  | [soil_type, land_use] => some (soil_type, land_use)
  | _ => none

/-- Embedding of lines 83 to 86 of `tr55/model.py`: under the pre-Columbian
flag, a land use outside the fixed pre-Columbian set is replaced by
`MixedForest`. -/
def applyPreColumbian (pre_columbian : Bool) (land_use : String) : String :=
  if pre_columbian ∧ land_use ∉ ["Water", "WoodyWetland", "HerbaceousWetland"] then
    "MixedForest"
  else land_use

/-- Embedding of lines 88 to 94 of `tr55/model.py`: resolve precipitation
and evapotranspiration from the first argument, looking both up when it is
a date and taking them directly when it is a pair. -/
def resolveDayParams (parameters : DayParams) (land_use : String) : Except String (ℚ × ℚ) :=
  match parameters with
  | .date d =>
    match lookup_p d with
    | .error e => .error e
    | .ok precip =>
      match lookup_et d land_use with
      | .error e => .error e
      | .ok evaptrans => .ok (precip, evaptrans)
  | .pair precip evaptrans => .ok (precip, evaptrans)

/-- Embedding of `model.simulate_tile`.  Note two faithful quirks of the
source: the BMP test at line 99 receives the whole colon-delimited
`tile_string`, not the bare land use, and the Pitt branch inherits the
`NameError` of `runoff_pitt`. -/
def simulate_tile (parameters : DayParams) (tile_string : String)
    (pre_columbian : Bool) : Except String (ℚ × ℚ × ℚ) :=
  match splitTile tile_string with
  | none => .error "ValueError: tile_string does not split into soil_type and land_use"
  | some (soil_type, lu0) =>
    let land_use := applyPreColumbian pre_columbian lu0
    match resolveDayParams parameters land_use with
    | .error e => .error e
    | .ok (precip, evaptrans) =>
      if precip = 0 then .ok (0, 0, 0)
      else if is_bmp tile_string then
        match lookup_bmp_infiltration soil_type land_use with
        | .error e => .error e
        | .ok inf => .ok (max (precip - (evaptrans + inf)) 0, evaptrans, inf)
      else
        match (if is_built_type land_use ∧ precip ≤ 2
               then runoff_pitt precip land_use
               else runoff_nrcs precip soil_type land_use) with
        | .error e => .error e
        | .ok runoff => .ok (runoff, evaptrans, max (precip - (evaptrans + runoff)) 0)

/-- Census structure accepted by `tile_by_tile_tr55`: a possibly-present
`error` key, and a possibly-present `result` object whose `cell_count` and
`distribution` keys may each be absent.  The distribution maps tile strings
to integer cell counts. -/
structure CensusResult where
  cell_count : Option ℤ
  distribution : Option (List (String × ℤ))

/-- Top-level census mapping (presence of the `error` key plus the
`result` object). -/
structure TileCensus where
  has_error : Bool
  result : Option CensusResult

/-- Componentwise sum of two result triples, the body of the `reduce`
lambda at line 143 of `tr55/model.py`. -/
def addTriple (a b : ℚ × ℚ × ℚ) : ℚ × ℚ × ℚ :=
  (a.1 + b.1, a.2.1 + b.2.1, a.2.2 + b.2.2)

/-- Embedding of the local helper `simulate` of `tile_by_tile_tr55`: run
the tile simulator, then scale each component by
`local_count / global_count` (written `(x * local_count) / global_count`
in the source; a zero global count raises `ZeroDivisionError`). -/
def sim_scale (parameters : DayParams) (pre_columbian : Bool) (global_count : ℤ)
    (tile : String) (local_count : ℤ) : Except String (ℚ × ℚ × ℚ) :=
  match simulate_tile parameters tile pre_columbian with
  | .error e => .error e
  | .ok (q, et, inf) =>
    if global_count = 0 then .error "ZeroDivisionError: float division by zero"
    else .ok ((q * local_count) / global_count, (et * local_count) / global_count,
              (inf * local_count) / global_count)

/-- Embedding of the list comprehension at line 142 of `tr55/model.py`:
simulate and scale every entry of the distribution, propagating the first
raised exception. -/
def mapSim (parameters : DayParams) (pre_columbian : Bool) (global_count : ℤ) :
    List (String × ℤ) → Except String (List (ℚ × ℚ × ℚ))
  | [] => .ok []
  | (tile, n) :: rest =>
    match sim_scale parameters pre_columbian global_count tile n with
    | .error e => .error e
    | .ok t =>
      match mapSim parameters pre_columbian global_count rest with
      | .error e => .error e
      | .ok ts => .ok (t :: ts)

/-- Embedding of `model.tile_by_tile_tr55`: structural validation of the
census, per-tile simulation scaled by cell-count weights, and a left fold
summing the scaled triples from `(0, 0, 0)`. -/
def tile_by_tile_tr55 (parameters : DayParams) (tile_census : TileCensus)
    (pre_columbian : Bool) : Except String (ℚ × ℚ × ℚ) :=
  if tile_census.has_error then .error "Tile census contains \x22error\x22 key"
  else
    match tile_census.result with
    | none => .error "Tile census does not contain \x22result\x22 key"
    | some r =>
      match r.cell_count with
      | none => .error "Tile census does not contain \x22result.cell_count\x22 key"
      | some global_count =>
        match r.distribution with
        | none => .error "Tile census does not contain \x22result.distribution\x22 key"
        | some dist =>
          match mapSim parameters pre_columbian global_count dist with
          | .error e => .error e
          | .ok results => .ok (results.foldl addTriple (0, 0, 0))

/-- Written from the words of the spec for the aggregation claim: scale
each simulated triple by `local_count / global_count` and accumulate
componentwise sums across all distribution entries. -/
def spec_weighted_sum (global_count : ℤ) : List (ℤ × (ℚ × ℚ × ℚ)) → ℚ × ℚ × ℚ
  | [] => (0, 0, 0)
  | (n, t) :: rest =>
    let s := spec_weighted_sum global_count rest
    ( ((n : ℚ) / (global_count : ℚ)) * t.1 + s.1
    , ((n : ℚ) / (global_count : ℚ)) * t.2.1 + s.2.1
    , ((n : ℚ) / (global_count : ℚ)) * t.2.2 + s.2.2 )

/-- A successful association-list lookup exhibits a member of the list. -/
theorem lookup_mem {α β : Type} [BEq α] [LawfulBEq α] {xs : List (α × β)} {k : α} {v : β}
    (h : xs.lookup k = some v) : (k, v) ∈ xs := by
  induction xs with
  | nil => simp [List.lookup] at h
  | cons p rest ih =>
    obtain ⟨a, b⟩ := p
    cases hka : (k == a) with
    | false =>
      simp only [List.lookup, hka] at h
      exact List.mem_cons_of_mem _ (ih h)
    | true =>
      simp only [List.lookup, hka] at h
      obtain rfl : k = a := eq_of_beq hka
      obtain rfl : b = v := Option.some.inj h
      exact List.mem_cons_self _ _

/-- Every curve number stored in the modelled `LAND_USE_VALUES` table is
positive and at most 100. -/
theorem lookup_cn_bounds {s l : String} {cn : ℚ} (h : lookup_cn s l = .ok cn) :
    0 < cn ∧ cn ≤ 100 := by
  have hall : ∀ p ∈ LAND_USE_VALUES, ∀ q ∈ p.2.cn.getD [], 0 < q.2 ∧ q.2 ≤ 100 := by decide
  unfold lookup_cn at h
  split at h
  · exact Except.noConfusion h
  next v heq1 =>
    split at h
    · exact Except.noConfusion h
    next cns heq2 =>
      split at h
      · exact Except.noConfusion h
      next cn2 heq3 =>
        obtain rfl : cn2 = cn := Except.ok.inj h
        have hmem : ((s, cn2) : String × ℚ) ∈ v.cn.getD [] := by
          rw [heq2]
          exact lookup_mem heq3
        exact hall _ (lookup_mem heq1) _ hmem

/-- A runoff value actually returned by the NRCS branch is clamped to the
precipitation. -/
theorem runoff_nrcs_le {p : ℚ} {s l : String} {r : ℚ} (h : runoff_nrcs p s l = .ok r) :
    r ≤ p := by
  unfold runoff_nrcs at h
  split at h
  · exact Except.noConfusion h
  next cn heq =>
    simp only [runoff_nrcs_cn] at h
    split at h
    · exact Except.noConfusion h
    · split at h
      · exact Except.noConfusion h
      · obtain rfl : _ = r := Except.ok.inj h
        exact min_le_right _ _

/-- Called on any built-type land use, `runoff_pitt` raises the `NameError`
of the undefined `runoff` name at line 45 of `tr55/model.py`. -/
theorem runoff_pitt_built {p : ℚ} {lu : String} (h : is_built_type lu = true) :
    runoff_pitt p lu = .error "NameError: name runoff is not defined" := by
  have hlu : lu ∈ BUILT_TYPES := by
    simpa [is_built_type, List.elem_iff] using h
  fin_cases hlu <;> rfl

/-- Every member of the modelled `BMPS` set is a bare land-use name
without a colon, so it cannot be unpacked into a soil type and a land
use. -/
theorem splitTile_of_bmp {t : String} (h : is_bmp t = true) : splitTile t = none := by
  have ht : t ∈ BMPS := by simpa [is_bmp, List.elem_iff] using h
  fin_cases ht <;> rfl

/-- A tile string that splits into a soil type and a land use contains a
colon, while every member of the modelled `BMPS` set is a bare land-use
name, so the membership test of line 99 of `tr55/model.py` fails. -/
theorem is_bmp_of_splitTile {t : String} {x : String × String}
    (h : splitTile t = some x) : is_bmp t = false := by
  cases hb : is_bmp t with
  | false => rfl
  | true =>
    rw [splitTile_of_bmp hb] at h
    exact Option.noConfusion h

/-- C1: the Pitt small-storm branch never returns the blended polynomial
value: for the example input precip 1.0 and land use Water the blend
evaluates to 0.97919720668 (and min with the precipitation would keep it),
but `runoff_pitt` and hence the non-BMP small-storm branch of
`simulate_tile` raise `NameError`, because line 45 of `tr55/model.py`
returns `min(runoff, precip)` while no name `runoff` was ever bound. -/
theorem c1_pitt_branch_name_error :
    runoff_pitt 1 "Water" = .error "NameError: name runoff is not defined"
    ∧ (pitt_runoff_vals 1).lookup "Water" = some (97919720668 / 10 ^ 11)
    ∧ min ((97919720668 : ℚ) / 10 ^ 11) 1 = 97919720668 / 10 ^ 11
    ∧ simulate_tile (.pair 1 0) "a:Water" false =
        .error "NameError: name runoff is not defined" :=
  ⟨rfl, by norm_num [pitt_runoff_vals, List.lookup_cons_self], min_eq_left (by norm_num), rfl⟩

/-- C3: the BMP branch of `simulate_tile` is unreachable.  `Rain_Garden` is
a BMP with a recorded infiltration rate, but line 99 of `tr55/model.py`
passes the whole tile string to `is_bmp`, and `"a:Rain_Garden"` is not a
member of the BMP set, so the tile is routed into the curve-number branch
instead of returning the BMP infiltration. -/
theorem c3_bmp_branch_dead :
    is_bmp "Rain_Garden" = true
    ∧ lookup_bmp_infiltration "a" "Rain_Garden" = .ok (8/5)
    ∧ is_bmp "a:Rain_Garden" = false
    ∧ simulate_tile (.pair 1 (1/2)) "a:Rain_Garden" false =
        .error "No curve numbers for land use Rain_Garden" :=
  ⟨rfl, rfl, rfl, rfl⟩

/-- C7: feeding a zero curve number into the NRCS runoff computation of
lines 54 to 58 of `tr55/model.py` raises a division-by-zero domain error
for every precipitation, and the lookup-then-compute decomposition of
`runoff_nrcs` routes every table curve number through that computation. -/
theorem c7_zero_curve_number :
    (∀ precip : ℚ, runoff_nrcs_cn precip 0 =
        .error "ZeroDivisionError: float division by zero")
    ∧ (∀ (precip : ℚ) (s l : String) (cn : ℚ), lookup_cn s l = .ok cn →
        runoff_nrcs precip s l = runoff_nrcs_cn precip cn) := by
  constructor
  · intro precip
    rfl
  · intro precip s l cn h
    unfold runoff_nrcs
    rw [h]

/-- Witness for C7: a concrete instantiation of the lookup hypothesis. -/
theorem c7_zero_curve_number_witness :
    runoff_nrcs_cn 5 0 = .error "ZeroDivisionError: float division by zero"
    ∧ runoff_nrcs 3 "a" "Water" = runoff_nrcs_cn 3 100 :=
  ⟨c7_zero_curve_number.1 5, c7_zero_curve_number.2 3 "a" "Water" 100 rfl⟩

/-- C9: `make_precolumbian` is idempotent: the projection target
`mixed_forest` is not itself a non-natural land use, so a second
application changes nothing. -/
theorem c9_precolumbian_idempotent (land_use : String) :
    make_precolumbian (make_precolumbian land_use) = make_precolumbian land_use := by
  by_cases h : land_use ∈ NON_NATURAL
  · simp only [make_precolumbian, if_pos h, ite_self]
  · simp only [make_precolumbian, if_neg h]

/-- C10: a census carrying the `error` key makes `tile_by_tile_tr55` fail
immediately, whatever the rest of the census contains, so no tile is ever
simulated. -/
theorem c10_error_key_fails_first (parameters : DayParams) (census : TileCensus)
    (pre_columbian : Bool) (h : census.has_error = true) :
    tile_by_tile_tr55 parameters census pre_columbian =
      .error "Tile census contains \x22error\x22 key" := by
  unfold tile_by_tile_tr55
  rw [h]
  rfl

/-- Witness for C10: a census whose `result`, `cell_count` and
`distribution` fields are all present and well formed is still rejected
when the `error` key is present. -/
theorem c10_error_key_fails_first_witness :
    tile_by_tile_tr55 (.pair 1 0) ⟨true, some ⟨some 100, some [("a:Water", 100)]⟩⟩ false =
      .error "Tile census contains \x22error\x22 key" :=
  c10_error_key_fails_first (.pair 1 0) ⟨true, some ⟨some 100, some [("a:Water", 100)]⟩⟩ false rfl

/-- C6 counterexample: a tile string without a colon cannot be unpacked
into a soil type and a land use, so even with precipitation exactly zero
`simulate_tile` raises instead of returning `(0, 0, 0)`. -/
theorem c6_counterexample_malformed_tile :
    simulate_tile (.pair 0 5) "Water" false =
      .error "ValueError: tile_string does not split into soil_type and land_use"
    ∧ simulate_tile (.pair 0 5) "Water" false ≠ .ok (0, 0, 0) := by
  refine ⟨rfl, fun h => ?_⟩
  rw [show simulate_tile (.pair 0 5) "Water" false =
    .error "ValueError: tile_string does not split into soil_type and land_use" from rfl] at h
  exact Except.noConfusion h

/-- C6 amended: whenever the tile string is well formed and the
precipitation/evapotranspiration resolution succeeds with precipitation
exactly zero, `simulate_tile` returns `(0, 0, 0)` regardless of every
other input, in particular regardless of a nonzero evapotranspiration. -/
theorem c6_amended_zero_precip (parameters : DayParams) (tile : String)
    (pre_columbian : Bool) (soil lu : String) (et : ℚ)
    (hsplit : splitTile tile = some (soil, lu))
    (hres : resolveDayParams parameters (applyPreColumbian pre_columbian lu) = .ok (0, et)) :
    simulate_tile parameters tile pre_columbian = .ok (0, 0, 0) := by
  unfold simulate_tile
  simp [hsplit, hres]

/-- Witness for C6: precipitation zero with a nonzero supplied
evapotranspiration still yields the all-zero triple. -/
theorem c6_amended_zero_precip_witness :
    simulate_tile (.pair 0 5) "a:Water" false = .ok (0, 0, 0) :=
  c6_amended_zero_precip (.pair 0 5) "a:Water" false "a" "Water" 5 rfl rfl

/-- C2 counterexample: for precipitation 3 and evapotranspiration 1 on tile
`a:Water` the simulator returns runoff 3 and infiltration clamped to 0, so
runoff + evapotranspiration + infiltration is 4, not the precipitation. -/
theorem c2_counterexample_water_balance :
    simulate_tile (.pair 3 1) "a:Water" false = .ok (3, 1, 0)
    ∧ (3 : ℚ) + 1 + 0 ≠ 3 :=
  ⟨by with_unfolding_all rfl, by norm_num⟩

/-- C2 amended: any triple actually returned by `simulate_tile` satisfies
runoff ≤ precipitation, and the water balance
runoff + evapotranspiration + infiltration = precipitation holds exactly
whenever evapotranspiration + runoff ≤ precipitation; otherwise the
infiltration residual is clamped to zero (and the sum then exceeds the
precipitation). -/
theorem c2_amended_water_balance (parameters : DayParams) (tile : String)
    (pre_columbian : Bool) (soil lu : String) (p ev q et i : ℚ)
    (hsplit : splitTile tile = some (soil, lu))
    (hres : resolveDayParams parameters (applyPreColumbian pre_columbian lu) = .ok (p, ev))
    (hsim : simulate_tile parameters tile pre_columbian = .ok (q, et, i)) :
    q ≤ p ∧ (et + q ≤ p → q + et + i = p) ∧ (p ≤ et + q → i = 0) := by
  unfold simulate_tile at hsim
  simp only [hsplit, hres] at hsim
  split at hsim
  · rename_i hp0
    simp only [Except.ok.injEq, Prod.mk.injEq] at hsim
    obtain ⟨rfl, rfl, rfl⟩ := hsim
    subst hp0
    norm_num
  · rename_i hp0
    split at hsim
    · rename_i hbmp
      rw [is_bmp_of_splitTile hsplit] at hbmp
      exact absurd hbmp (by simp)
    · split at hsim
      · exact Except.noConfusion hsim
      · rename_i r heq
        simp only [Except.ok.injEq, Prod.mk.injEq] at hsim
        obtain ⟨rfl, rfl, rfl⟩ := hsim
        have hr : r ≤ p := by
          split at heq
          · rename_i hc
            rw [runoff_pitt_built hc.1] at heq
            exact Except.noConfusion heq
          · exact runoff_nrcs_le heq
        refine ⟨hr, fun hle => ?_, fun hge => ?_⟩
        · rw [max_eq_left (by linarith)]
          ring
        · rw [max_eq_right (by linarith)]

/-- Witness for C2: a concrete instantiation of all hypotheses of the
amended water-balance theorem. -/
theorem c2_amended_water_balance_witness :
    (3 : ℚ) ≤ 3 ∧ ((1 : ℚ) + 3 ≤ 3 → (3 : ℚ) + 1 + 0 = 3) ∧ ((3 : ℚ) ≤ 1 + 3 → (0 : ℚ) = 0) :=
  c2_amended_water_balance (.pair 3 1) "a:Water" false "a" "Water" 3 1 3 1 0 rfl rfl
    (by with_unfolding_all rfl)

/-- C5: whenever the curve-number lookup succeeds with a positive curve
number and the precipitation is positive, `runoff_nrcs` returns exactly the
NRCS formula value, clamped to the precipitation: with retention
S = 1000/cn − 10 and initial abstraction 0.2·S, the runoff is
(P − 0.2·S)² / ((P − 0.2·S) + S), capped at P. -/
theorem c5_nrcs_formula (p : ℚ) (s l : String) (cn : ℚ)
    (hp : 0 < p) (hcn : lookup_cn s l = .ok cn) (hpos : 0 < cn) :
    runoff_nrcs p s l =
      .ok (min ((p - 2 / 10 * (1000 / cn - 10)) ^ 2 /
                (p - 2 / 10 * (1000 / cn - 10) + (1000 / cn - 10))) p) := by
  have hcn100 : cn ≤ 100 := (lookup_cn_bounds hcn).2
  have hS : (0 : ℚ) ≤ 1000 / cn - 10 := by
    rw [sub_nonneg, le_div_iff₀ hpos]
    linarith
  have hden : 0 < p - 2 / 10 * (1000 / cn - 10) + (1000 / cn - 10) := by linarith
  unfold runoff_nrcs
  simp only [hcn]
  simp only [runoff_nrcs_cn]
  rw [if_neg (ne_of_gt hpos), if_neg hden.ne']

/-- Witness for C5: the formula evaluated on tile `a:Water` (curve number
100) with precipitation 3. -/
theorem c5_nrcs_formula_witness :
    runoff_nrcs 3 "a" "Water" =
      .ok (min (((3 : ℚ) - 2 / 10 * (1000 / 100 - 10)) ^ 2 /
                (3 - 2 / 10 * (1000 / 100 - 10) + (1000 / 100 - 10))) 3) :=
  c5_nrcs_formula 3 "a" "Water" 100 (by norm_num) rfl (by norm_num)

/-- When every entry of the distribution simulates successfully, the list
comprehension of `tile_by_tile_tr55` succeeds and its left fold equals the
componentwise weighted sum written from the spec. -/
theorem mapSim_foldl {parameters : DayParams} {pre_columbian : Bool} {gc : ℤ}
    (hgc : gc ≠ 0) :
    ∀ {dist : List (String × ℤ)} {rs : List (ℤ × (ℚ × ℚ × ℚ))},
      List.Forall₂ (fun ent r => ent.2 = r.1 ∧
        simulate_tile parameters ent.1 pre_columbian = .ok r.2) dist rs →
      ∃ ms, mapSim parameters pre_columbian gc dist = .ok ms ∧
        ∀ acc, ms.foldl addTriple acc = addTriple acc (spec_weighted_sum gc rs) := by
  intro dist rs h
  induction h with
  | nil =>
    refine ⟨[], rfl, fun acc => ?_⟩
    obtain ⟨a1, a2, a3⟩ := acc
    simp [addTriple, spec_weighted_sum]
  | cons h1 h2 ih =>
    rename_i ent r dist' rs'
    obtain ⟨tile, n⟩ := ent
    obtain ⟨m, t⟩ := r
    obtain ⟨q, et, inf⟩ := t
    obtain ⟨hn, hsim⟩ := h1
    obtain ⟨ms', hms', hfold⟩ := ih
    subst hn
    refine ⟨((q * (n : ℚ)) / (gc : ℚ), (et * (n : ℚ)) / (gc : ℚ),
             (inf * (n : ℚ)) / (gc : ℚ)) :: ms', ?_, fun acc => ?_⟩
    · simp only [mapSim, sim_scale, hsim, hms', if_neg hgc]
    · obtain ⟨a1, a2, a3⟩ := acc
      simp only [List.foldl_cons, hfold, spec_weighted_sum, addTriple, Prod.mk.injEq]
      refine ⟨by ring, by ring, by ring⟩

/-- C4: with a well-formed census and a nonzero total cell count, the
aggregator returns the componentwise sum over all distribution entries of
`(local_count / global_count)` times the simulated triple of that entry;
in particular one tile type counted at the full total returns exactly that
tile's triple, and two tile types counted 60 and 40 out of 100 return
`0.6 t1 + 0.4 t2` componentwise. -/
theorem c4_aggregation (parameters : DayParams) (pre_columbian : Bool) :
    (∀ (gc : ℤ), gc ≠ 0 → ∀ (dist : List (String × ℤ)) (rs : List (ℤ × (ℚ × ℚ × ℚ))),
      List.Forall₂ (fun ent r => ent.2 = r.1 ∧
        simulate_tile parameters ent.1 pre_columbian = .ok r.2) dist rs →
      tile_by_tile_tr55 parameters ⟨false, some ⟨some gc, some dist⟩⟩ pre_columbian =
        .ok (spec_weighted_sum gc rs))
    ∧ (∀ (gc : ℤ), gc ≠ 0 → ∀ (tile : String) (t : ℚ × ℚ × ℚ),
        simulate_tile parameters tile pre_columbian = .ok t →
        tile_by_tile_tr55 parameters ⟨false, some ⟨some gc, some [(tile, gc)]⟩⟩ pre_columbian =
          .ok t)
    ∧ (∀ (tile1 tile2 : String) (t1 t2 : ℚ × ℚ × ℚ),
        simulate_tile parameters tile1 pre_columbian = .ok t1 →
        simulate_tile parameters tile2 pre_columbian = .ok t2 →
        tile_by_tile_tr55 parameters
            ⟨false, some ⟨some 100, some [(tile1, 60), (tile2, 40)]⟩⟩ pre_columbian =
          .ok (6 / 10 * t1.1 + 4 / 10 * t2.1, 6 / 10 * t1.2.1 + 4 / 10 * t2.2.1,
               6 / 10 * t1.2.2 + 4 / 10 * t2.2.2)) := by
  have main : ∀ (gc : ℤ), gc ≠ 0 →
      ∀ (dist : List (String × ℤ)) (rs : List (ℤ × (ℚ × ℚ × ℚ))),
      List.Forall₂ (fun ent r => ent.2 = r.1 ∧
        simulate_tile parameters ent.1 pre_columbian = .ok r.2) dist rs →
      tile_by_tile_tr55 parameters ⟨false, some ⟨some gc, some dist⟩⟩ pre_columbian =
        .ok (spec_weighted_sum gc rs) := by
    intro gc hgc dist rs h
    obtain ⟨ms, hms, hfold⟩ := mapSim_foldl hgc h
    simp only [tile_by_tile_tr55, Bool.false_eq_true, if_false, hms]
    rw [hfold (0, 0, 0)]
    simp [addTriple]
  refine ⟨main, ?_, ?_⟩
  · intro gc hgc tile t hsim
    have hcast : ((gc : ℚ)) ≠ 0 := Int.cast_ne_zero.mpr hgc
    rw [main gc hgc [(tile, gc)] [(gc, t)]
      (List.Forall₂.cons ⟨rfl, hsim⟩ List.Forall₂.nil)]
    obtain ⟨q, et, inf⟩ := t
    simp [spec_weighted_sum, div_self hcast]
  · intro tile1 tile2 t1 t2 h1 h2
    rw [main 100 (by norm_num) [(tile1, 60), (tile2, 40)] [(60, t1), (40, t2)]
      (List.Forall₂.cons ⟨rfl, h1⟩ (List.Forall₂.cons ⟨rfl, h2⟩ List.Forall₂.nil))]
    obtain ⟨a1, a2, a3⟩ := t1
    obtain ⟨b1, b2, b3⟩ := t2
    simp only [spec_weighted_sum, Except.ok.injEq, Prod.mk.injEq]
    push_cast
    refine ⟨by ring, by ring, by ring⟩

/-- Witness for C4: a census with the single tile `a:Water` occupying the
full cell count returns exactly that tile's simulated triple. -/
theorem c4_aggregation_witness :
    tile_by_tile_tr55 (.pair 3 0) ⟨false, some ⟨some 100, some [("a:Water", 100)]⟩⟩ false =
      .ok (3, 0, 0) :=
  (c4_aggregation (.pair 3 0) false).2.1 100 (by norm_num) "a:Water" (3, 0, 0)
    (by with_unfolding_all rfl)

/-- C8: every lookup function of `tr55/tablelookup.py`, applied to a key
with no entry in its reference table, fails with a key-not-found error
message naming the offending key (so none of them ever returns a default
value): unknown land uses for `lookup_cn`, `lookup_ki`,
`lookup_infiltration_factor` and `lookup_nlcd`, unknown soil types for
`lookup_cn`, pollutants outside the fixed four-element set and unknown
NLCD classes for `lookup_load`. -/
theorem c8_lookup_key_not_found :
    (∀ lu, LAND_USE_VALUES.lookup lu = none →
      (∀ s, lookup_cn s lu = .error ("Unknown land use: " ++ lu))
      ∧ lookup_ki lu = .error ("Unknown land use: " ++ lu)
      ∧ lookup_infiltration_factor lu = .error ("Unknown land use: " ++ lu)
      ∧ lookup_nlcd lu = .error ("Unknown land use type: " ++ lu))
    ∧ (∀ (s lu : String) (v : LandUseValue) (cns : List (String × ℚ)),
        LAND_USE_VALUES.lookup lu = some v → v.cn = some cns → cns.lookup s = none →
        lookup_cn s lu = .error ("Unknown soil type: " ++ s))
    ∧ (∀ (n : ℕ) (poll : String), poll ∉ ["tn", "tp", "bod", "tss"] →
        lookup_load n poll = .error ("Unknown pollutant type: " ++ poll))
    ∧ (∀ (n : ℕ) (poll : String), POLLUTION_LOADS.lookup n = none →
        poll ∈ ["tn", "tp", "bod", "tss"] →
        lookup_load n poll = .error ("Unknown NLCD class: " ++ Nat.repr n)) := by
  refine ⟨fun lu h => ⟨fun s => ?_, ?_, ?_, ?_⟩, fun s lu v cns hv hcn hs => ?_,
    fun n poll hp => ?_, fun n poll hn hmem => ?_⟩
  · simp only [lookup_cn, h]
  · simp only [lookup_ki, h]
  · simp only [lookup_infiltration_factor, h]
  · simp only [lookup_nlcd, h]
  · simp only [lookup_cn, hv, hcn, hs]
  · simp only [lookup_load, if_pos hp]
  · unfold lookup_load
    rw [if_neg (not_not_intro hmem)]
    simp only [hn]

/-- Witness for C8: concrete unknown keys for every conjunct. -/
theorem c8_lookup_key_not_found_witness :
    lookup_cn "a" "Basilisk" = .error "Unknown land use: Basilisk"
    ∧ lookup_ki "Basilisk" = .error "Unknown land use: Basilisk"
    ∧ lookup_infiltration_factor "Basilisk" = .error "Unknown land use: Basilisk"
    ∧ lookup_nlcd "Basilisk" = .error "Unknown land use type: Basilisk"
    ∧ lookup_cn "z" "Water" = .error "Unknown soil type: z"
    ∧ lookup_load 24 "lead" = .error "Unknown pollutant type: lead"
    ∧ lookup_load 99 "tn" = .error "Unknown NLCD class: 99" :=
  ⟨(c8_lookup_key_not_found.1 "Basilisk" rfl).1 "a",
   (c8_lookup_key_not_found.1 "Basilisk" rfl).2.1,
   (c8_lookup_key_not_found.1 "Basilisk" rfl).2.2.1,
   (c8_lookup_key_not_found.1 "Basilisk" rfl).2.2.2,
   c8_lookup_key_not_found.2.1 "z" "Water" _ _ rfl rfl rfl,
   c8_lookup_key_not_found.2.2.1 24 "lead" (by decide),
   c8_lookup_key_not_found.2.2.2 99 "tn" rfl (by decide)⟩
